import Mathlib

namespace Blivet

/-- Action type codes from deviceaction.py (the values are ordering hints). -/
def ACTION_TYPE_NONE : Nat := 0

def ACTION_TYPE_DESTROY : Nat := 1000

def ACTION_TYPE_RESIZE : Nat := 500

def ACTION_TYPE_CREATE : Nat := 100

/-- Action object code: no operand. -/
def ACTION_OBJECT_NONE : Nat := 0

/-- Action object code: the action operates on a format. -/
def ACTION_OBJECT_FORMAT : Nat := 1

/-- Action object code: the action operates on a device. -/
def ACTION_OBJECT_DEVICE : Nat := 2

/-- Resize direction code for a shrink. -/
def RESIZE_SHRINK : Nat := 88

/-- Resize direction code for a grow. -/
def RESIZE_GROW : Nat := 89

/-- A DeviceFormat as seen by deviceaction.py: existence flag, resizability,
current and target sizes, optional bounds, the format type string and UUID.
The concrete format classes live outside the action module. -/
structure Format where
  type : Option String
  exists_ : Bool
  resizable : Bool
  currentSize : Int
  targetSize : Int
  minSize : Int
  maxSize : Int
  uuid : Option String
deriving DecidableEq, Repr

/-- Structural kind of a device, covering the isinstance checks used by the
requires rules: plain storage device, partition (with its disk's id and its
partition number), or LVM logical volume (with its vg's id and singlePV). -/
inductive DeviceSubtype where
  | storage
  | partitionDev (disk : Nat) (number : Nat)
  | lvmLV (vg : Nat) (singlePV : Bool)
deriving DecidableEq, Repr

/-- A StorageDevice as seen by deviceaction.py: identity, existence, size
attributes, the current format, the ids of the devices it depends on, and
its structural subtype. -/
structure Device where
  id : Nat
  exists_ : Bool
  resizable : Bool
  currentSize : Int
  minSize : Int
  maxSize : Int
  size : Int
  targetSize : Int
  format : Format
  dependsOnIds : List Nat
  subtype : DeviceSubtype
  deviceLinks : List String
deriving DecidableEq, Repr

/-- Device.dependsOn relation: true when the other device's id is among the
ids this device depends on. -/
def Device.dependsOn (d other : Device) : Bool :=
  d.dependsOnIds.contains other.id

/-- isinstance(device, PartitionDevice). -/
def Device.isPartitionDevice (d : Device) : Bool :=
  match d.subtype with
  | .partitionDev _ _ => true
  | _ => false

/-- isinstance(device, LVMLogicalVolumeDevice). -/
def Device.isLVMLV (d : Device) : Bool :=
  match d.subtype with
  | .lvmLV _ _ => true
  | _ => false

/-- Identity of the disk holding a partition (device.disk); 0 for
non-partitions, where the source never reads it. -/
def Device.diskId (d : Device) : Nat :=
  match d.subtype with
  | .partitionDev disk _ => disk
  | _ => 0

/-- partedPartition.number of a partition; 0 for non-partitions, where the
source never reads it. -/
def Device.partNumber (d : Device) : Nat :=
  match d.subtype with
  | .partitionDev _ number => number
  | _ => 0

/-- Identity of the volume group of an LVM LV (device.vg); 0 otherwise. -/
def Device.vgId (d : Device) : Nat :=
  match d.subtype with
  | .lvmLV vg _ => vg
  | _ => 0

/-- singlePV of an LVM LV; false otherwise. -/
def Device.singlePV (d : Device) : Bool :=
  match d.subtype with
  | .lvmLV _ s => s
  | _ => false

/-- Modelled from the spec: getFormat lives in formats/__init__.py, which is
not under src/. getFormat None returns a blank, non-existent placeholder
format ("no format"). Only the None case is used by deviceaction.py's
ActionCreateFormat constructor. -/
def getFormat (t : Option String) : Format :=
  { type := t, exists_ := false, resizable := false, currentSize := 0,
    targetSize := 0, minSize := 0, maxSize := 0, uuid := none }

/-- Modelled from the spec: the Device format setter lives in devices.py,
which is not under src/. Assigning None to device.format installs the
explicit "no format" placeholder getFormat None. -/
def Device.setFormatNone (d : Device) : Device :=
  { d with format := getFormat none }

/-- Per-kind payload of a DeviceAction: resize actions carry the direction
and the snapshotted original size; format create/destroy actions carry the
snapshotted original format. -/
inductive ActionKind where
  | createDevice
  | destroyDevice
  | resizeDevice (dir : Nat) (origsize : Int)
  | createFormat (origFormat : Format)
  | destroyFormat (origFormat : Format)
  | resizeFormat (dir : Nat) (origSize : Int)
deriving DecidableEq, Repr

/-- The class-level type attribute of each action kind. -/
def ActionKind.type : ActionKind → Nat
  | .createDevice => ACTION_TYPE_CREATE
  | .destroyDevice => ACTION_TYPE_DESTROY
  | .resizeDevice _ _ => ACTION_TYPE_RESIZE
  | .createFormat _ => ACTION_TYPE_CREATE
  | .destroyFormat _ => ACTION_TYPE_DESTROY
  | .resizeFormat _ _ => ACTION_TYPE_RESIZE

/-- The class-level obj attribute of each action kind. -/
def ActionKind.obj : ActionKind → Nat
  | .createDevice => ACTION_OBJECT_DEVICE
  | .destroyDevice => ACTION_OBJECT_DEVICE
  | .resizeDevice _ _ => ACTION_OBJECT_DEVICE
  | .createFormat _ => ACTION_OBJECT_FORMAT
  | .destroyFormat _ => ACTION_OBJECT_FORMAT
  | .resizeFormat _ _ => ACTION_OBJECT_FORMAT

/-- A DeviceAction: its ObjectID id, its kind (with per-kind payload), and
the device it operates on (the state of the referenced Device object at the
moment a predicate or method is evaluated). -/
structure DeviceAction where
  id : Nat
  kind : ActionKind
  device : Device
deriving DecidableEq, Repr

/-- self.type. -/
def DeviceAction.type (a : DeviceAction) : Nat := a.kind.type

/-- self.obj. -/
def DeviceAction.obj (a : DeviceAction) : Nat := a.kind.obj

/-- self.dir, defined only on resize actions. -/
def DeviceAction.dir (a : DeviceAction) : Option Nat :=
  match a.kind with
  | .resizeDevice d _ => some d
  | .resizeFormat d _ => some d
  | _ => none

/-- isDestroy property. -/
def DeviceAction.isDestroy (a : DeviceAction) : Bool :=
  a.type == ACTION_TYPE_DESTROY

/-- isCreate property. -/
def DeviceAction.isCreate (a : DeviceAction) : Bool :=
  a.type == ACTION_TYPE_CREATE

/-- isResize property. -/
def DeviceAction.isResize (a : DeviceAction) : Bool :=
  a.type == ACTION_TYPE_RESIZE

/-- isShrink property: a resize whose direction is shrink (the type test
short-circuits before dir is read on non-resize actions). -/
def DeviceAction.isShrink (a : DeviceAction) : Bool :=
  a.isResize && a.dir == some RESIZE_SHRINK

/-- isGrow property. -/
def DeviceAction.isGrow (a : DeviceAction) : Bool :=
  a.isResize && a.dir == some RESIZE_GROW

/-- isDevice property. -/
def DeviceAction.isDevice (a : DeviceAction) : Bool :=
  a.obj == ACTION_OBJECT_DEVICE

/-- isFormat property. -/
def DeviceAction.isFormat (a : DeviceAction) : Bool :=
  a.obj == ACTION_OBJECT_FORMAT

/-- The format property: device.format for every action except
ActionDestroyFormat, which overrides it to return the snapshotted original
format. -/
def DeviceAction.format (a : DeviceAction) : Format :=
  match a.kind with
  | .destroyFormat orig => orig
  | _ => a.device.format

/-- requires predicate, dispatched over the action kinds exactly as the
per-class overrides in deviceaction.py (the base class returns False; every
subclass listed here overrides it except create/destroy where noted). -/
def DeviceAction.requires (self action : DeviceAction) : Bool :=
  match self.kind with
  | .createDevice =>
    if self.device.dependsOn action.device then true
    else if action.isCreate && action.isDevice &&
            self.device.isPartitionDevice && action.device.isPartitionDevice &&
            self.device.diskId == action.device.diskId then
      self.device.partNumber > action.device.partNumber
    else if action.isCreate && action.isDevice &&
            self.device.isLVMLV && action.device.isLVMLV &&
            self.device.vgId == action.device.vgId &&
            action.device.singlePV && !self.device.singlePV then true
    else false
  | .destroyDevice =>
    if action.device.dependsOn self.device && action.isDestroy then true
    else if action.isDestroy && action.isDevice &&
            self.device.isPartitionDevice && action.device.isPartitionDevice &&
            self.device.diskId == action.device.diskId then
      self.device.partNumber < action.device.partNumber
    else if action.isDestroy && action.isFormat &&
            action.device.id == self.device.id then true
    else false
  | .resizeDevice dir _ =>
    if action.isResize then
      if self.device.id == action.device.id && action.dir == some dir &&
         action.isFormat && dir == RESIZE_SHRINK then true
      else if action.isGrow && self.device.dependsOn action.device then true
      else if action.isShrink && action.device.dependsOn self.device then true
      else false
    else false
  | .createFormat _ =>
    (self.device.dependsOn action.device &&
     !(action.isDestroy && action.isDevice)) ||
    (action.isDevice && (action.isCreate || action.isResize) &&
     self.device.id == action.device.id)
  | .destroyFormat _ =>
    action.device.dependsOn self.device && action.isDestroy
  | .resizeFormat dir _ =>
    if action.isResize then
      if self.device.id == action.device.id && action.dir == some dir &&
         action.isDevice && dir == RESIZE_GROW then true
      else if action.isShrink && action.device.dependsOn self.device then true
      else if action.isGrow && self.device.dependsOn action.device then true
      else false
    else false

/-- obsoletes predicate, dispatched over the action kinds: ActionDestroyDevice,
ActionCreateFormat and ActionDestroyFormat override the base rule; the other
kinds use the base DeviceAction.obsoletes (same device, same type, same obj,
strictly higher id). -/
def DeviceAction.obsoletes (self action : DeviceAction) : Bool :=
  match self.kind with
  | .destroyDevice =>
    if action.device.id == self.device.id then
      if self.id ≥ action.id && !self.device.exists_ then true
      else if self.id > action.id && self.device.exists_ &&
              !(action.isDestroy && action.isFormat) then true
      else false
    else false
  | .createFormat _ =>
    self.device.id == action.device.id &&
    self.obj == action.obj &&
    !(action.isDestroy && action.format.exists_) &&
    self.id > action.id
  | .destroyFormat origFormat =>
    self.device.id == action.device.id &&
    self.obj == action.obj &&
    (self.id > action.id ||
     (self.id == action.id && !origFormat.exists_)) &&
    !(action.format.exists_ && !origFormat.exists_)
  | _ =>
    self.device.id == action.device.id &&
    self.type == action.type &&
    self.obj == action.obj &&
    self.id > action.id

/-- Python error values raised by the modules under verification. -/
inductive PyError where
  | valueError (msg : String)
  | multipathMemberError (msg : String)
deriving DecidableEq, Repr

/-- ActionResizeDevice.__init__: validates resizability, no-op size and the
min/max bounds, then records the direction, snapshots the original size
(targetSize when positive, else device.size) and assigns the new target size
to the device. Returns the constructed action and the updated device. -/
def ActionResizeDevice.mk (device : Device) (newsize : Int) (aid : Nat) :
    Except PyError (DeviceAction × Device) :=
  if !device.resizable then
    .error (.valueError ("device is not resizable"))
  else if device.currentSize == newsize then
    .error (.valueError ("new size same as old size"))
  else if newsize < device.minSize then
    .error (.valueError ("new size is too small"))
  else if newsize > device.maxSize then
    .error (.valueError ("new size is too large"))
  else
    let dir := if newsize > device.currentSize then RESIZE_GROW
               else RESIZE_SHRINK
    let origsize := if device.targetSize > 0 then device.targetSize
                    else device.size
    let device' := { device with targetSize := newsize }
    .ok (⟨aid, .resizeDevice dir origsize, device'⟩, device')

/-- ActionResizeFormat.__init__: validates resizability of the format and
no-op size only (no bound checks appear in the source), then records the
direction, snapshots the format's original target size and assigns the new
target size to the device's format. -/
def ActionResizeFormat.mk (device : Device) (newsize : Int) (aid : Nat) :
    Except PyError (DeviceAction × Device) :=
  if !device.format.resizable then
    .error (.valueError ("format is not resizable"))
  else if device.format.currentSize == newsize then
    .error (.valueError ("new size same as old size"))
  else
    let dir := if newsize > device.format.currentSize then RESIZE_GROW
               else RESIZE_SHRINK
    let origSize := device.format.targetSize
    let device' := { device with format := { device.format with targetSize := newsize } }
    .ok (⟨aid, .resizeFormat dir origSize, device'⟩, device')

/-- ActionCreateFormat.__init__: with a format argument it snapshots the
device's current format and installs the new one; with no format argument it
leaves the device untouched and snapshots a fresh getFormat None. -/
def ActionCreateFormat.mk (device : Device) (format : Option Format) (aid : Nat) :
    DeviceAction × Device :=
  match format with
  | some f =>
    let device' := { device with format := f }
    (⟨aid, .createFormat device.format, device'⟩, device')
  | none =>
    (⟨aid, .createFormat (getFormat none), device⟩, device)

/-- ActionDestroyFormat.__init__: snapshots the device's current format and
assigns None to device.format (which the external setter turns into the
"no format" placeholder). -/
def ActionDestroyFormat.mk (device : Device) (aid : Nat) :
    DeviceAction × Device :=
  let device' := device.setFormatNone
  (⟨aid, .destroyFormat device.format, device'⟩, device')

/-- ActionCreateDevice.__init__: rejects a device that already exists. -/
def ActionCreateDevice.mk (device : Device) (aid : Nat) :
    Except PyError DeviceAction :=
  if device.exists_ then .error (.valueError ("device already exists"))
  else .ok ⟨aid, .createDevice, device⟩

/-- Result of the udev block-device lookup performed by
ActionCreateFormat.execute after the format is created: the device's UUID as
reported by udev, and its symlink alias paths. -/
structure UdevInfo where
  uuid : String
  symlinks : List String
deriving DecidableEq, Repr

/-- The post-create tail of ActionCreateFormat.execute (the lines following
the format's create call): udev is settled, the block device is looked up,
and, when a descriptor is found, the format's UUID is recorded (except for
btrfs) and the device's symlinks are stored; when no descriptor is found, an
error is logged for every format type except tmpfs. The external side
effects before this point (device setup, partition flag handling, the
format's own create) do not touch the modelled state. Returns the updated
device and the list of logged error messages; the function is total, so this
tail never raises. -/
def ActionCreateFormat.executePost (device : Device) (info : Option UdevInfo) :
    Device × List String :=
  match info with
  | some i =>
    let device1 :=
      if device.format.type != some ("btrfs") then
        { device with format := { device.format with uuid := some i.uuid } }
      else device
    ({ device1 with deviceLinks := i.symlinks }, [])
  | none =>
    if device.format.type != some ("tmpfs") then
      (device, [("udev lookup failed for device")])
    else
      (device, [])

/-- cancel, dispatched over the action kinds: resize actions restore the
snapshotted size, format create/destroy restore the snapshotted format, and
the base cancel is a no-op. Takes and returns the device state. -/
def DeviceAction.cancel (a : DeviceAction) (device : Device) : Device :=
  match a.kind with
  | .resizeDevice _ origsize => { device with targetSize := origsize }
  | .resizeFormat _ origSize =>
    { device with format := { device.format with targetSize := origSize } }
  | .createFormat origFormat => { device with format := origFormat }
  | .destroyFormat origFormat => { device with format := origFormat }
  | _ => device

/-- A MultipathMember format from formats/multipath.py: the DeviceFormat
attributes read by its methods plus the block-object member attribute. -/
structure MultipathMember where
  device : Option String
  uuid : Option String
  exists_ : Bool
  member : Option String
deriving DecidableEq, Repr

/-- MultipathMember.create: ignores all arguments and unconditionally raises
MultipathMemberError. -/
def MultipathMember.create (f : MultipathMember) (args : List String) :
    Except PyError MultipathMember :=
  .error (.multipathMemberError ("creation of multipath members is non-sense"))

/-- MultipathMember.destroy: ignores all arguments and unconditionally raises
MultipathMemberError. -/
def MultipathMember.destroy (f : MultipathMember) (args : List String) :
    Except PyError MultipathMember :=
  .error (.multipathMemberError ("destruction of multipath members is non-sense"))

/-- An existing ext4 format used as a concrete model state in witnesses and
counterexamples. -/
def ext4Fmt : Format :=
  { type := some ("ext4"), exists_ := true, resizable := true,
    currentSize := 10, targetSize := 10, minSize := 5, maxSize := 20,
    uuid := none }

/-- A concrete resizable device holding an existing ext4 format, with its
target size unset (0), used in witnesses and counterexamples. -/
def exDev : Device :=
  { id := 1, exists_ := true, resizable := true, currentSize := 30,
    minSize := 1, maxSize := 100, size := 50, targetSize := 0,
    format := ext4Fmt, dependsOnIds := [], subtype := .storage,
    deviceLinks := [] }

/-- C10: MultipathMember.create and MultipathMember.destroy raise
MultipathMemberError for every receiver and argument list, producing no
updated format, so neither call mutates the format's state. -/
theorem c10_multipath_create_destroy_always_raise
    (f : MultipathMember) (args : List String) :
    f.create args =
      .error (.multipathMemberError ("creation of multipath members is non-sense")) ∧
    f.destroy args =
      .error (.multipathMemberError ("destruction of multipath members is non-sense")) :=
  ⟨rfl, rfl⟩

/-- C8: when the post-create udev lookup in ActionCreateFormat.execute finds
no descriptor, execution completes normally (the modelled tail is total and
returns), recording nothing for tmpfs and logging one non-fatal error for
every other format type; when a descriptor is found, the format's UUID is
recorded exactly when the format type is not btrfs. -/
theorem c8_create_format_execute_udev (dev : Device) (i : UdevInfo) :
    (ActionCreateFormat.executePost dev none =
      (dev, if dev.format.type = some ("tmpfs") then []
            else [("udev lookup failed for device")])) ∧
    ((ActionCreateFormat.executePost dev (some i)).1.format.uuid =
      if dev.format.type = some ("btrfs") then dev.format.uuid
      else some i.uuid) ∧
    (ActionCreateFormat.executePost dev (some i)).2 = [] := by
  refine ⟨?_, ?_, rfl⟩
  · unfold ActionCreateFormat.executePost
    by_cases h : dev.format.type = some ("tmpfs") <;> simp [h]
  · unfold ActionCreateFormat.executePost
    by_cases h : dev.format.type = some ("btrfs") <;> simp [h]

/-- C9: constructing ActionCreateFormat without a format argument leaves the
device's format unchanged, records a blank getFormat None as the snapshot,
and a subsequent cancel installs that blank placeholder as the device's
format, which differs from whatever format the device held before whenever
that format is not itself the blank placeholder. -/
theorem c9_create_format_without_format (dev : Device) (aid : Nat)
    (h : dev.format ≠ getFormat none) :
    (ActionCreateFormat.mk dev none aid).2 = dev ∧
    (ActionCreateFormat.mk dev none aid).1.kind =
      .createFormat (getFormat none) ∧
    ((ActionCreateFormat.mk dev none aid).1.cancel
      (ActionCreateFormat.mk dev none aid).2).format = getFormat none ∧
    ((ActionCreateFormat.mk dev none aid).1.cancel
      (ActionCreateFormat.mk dev none aid).2).format ≠ dev.format := by
  refine ⟨rfl, rfl, rfl, ?_⟩
  exact fun hh => h hh.symm

/-- C9 witness: the theorem applied to the concrete device exDev, whose ext4
format is not the blank placeholder. -/
theorem c9_create_format_without_format_witness :
    ((ActionCreateFormat.mk exDev none 4).1.cancel
      (ActionCreateFormat.mk exDev none 4).2).format ≠ exDev.format :=
  (c9_create_format_without_format exDev 4 (by decide)).2.2.2

/-- C1 counterexample: constructing ActionResizeFormat on exDev with
requested size 2, strictly below the format's minimum size bound 5 (and also
different from the current size), succeeds instead of failing with a
validation error. -/
theorem c1_counterexample :
    (2 : Int) < exDev.format.minSize ∧
    ActionResizeFormat.mk exDev 2 7 =
      .ok (⟨7, .resizeFormat RESIZE_SHRINK 10,
             { exDev with format := { ext4Fmt with targetSize := 2 } }⟩,
           { exDev with format := { ext4Fmt with targetSize := 2 } }) :=
  ⟨by decide, rfl⟩

/-- C1 amended: for ActionResizeDevice a requested size equal to the current
size, below the minimum, or above the maximum fails at construction with a
ValueError and no action or device update is produced; for ActionResizeFormat
only a size equal to the format's current size is rejected this way, and the
format's minimum and maximum bounds are not checked: construction succeeds
whenever the format is resizable and the size differs from the current one. -/
theorem c1_resize_construction_validation
    (dev : Device) (newsize : Int) (aid : Nat) :
    (dev.currentSize = newsize ∨ newsize < dev.minSize ∨ dev.maxSize < newsize →
      ∃ msg, ActionResizeDevice.mk dev newsize aid = .error (.valueError msg)) ∧
    (dev.format.currentSize = newsize →
      ∃ msg, ActionResizeFormat.mk dev newsize aid = .error (.valueError msg)) ∧
    (dev.format.resizable = true → dev.format.currentSize ≠ newsize →
      ∃ p, ActionResizeFormat.mk dev newsize aid = .ok p) := by
  refine ⟨?_, ?_, ?_⟩
  · intro h
    unfold ActionResizeDevice.mk
    split
    · exact ⟨_, rfl⟩
    · split
      · exact ⟨_, rfl⟩
      · split
        · exact ⟨_, rfl⟩
        · split
          · exact ⟨_, rfl⟩
          · rename_i h1 h2 h3 h4
            exfalso
            simp only [beq_iff_eq, decide_eq_true_eq, not_lt] at h2 h3 h4
            rcases h with h | h | h
            · exact h2 h
            · omega
            · omega
  · intro h
    unfold ActionResizeFormat.mk
    split
    · exact ⟨_, rfl⟩
    · split
      · exact ⟨_, rfl⟩
      · rename_i h1 h2
        exfalso
        simp only [beq_iff_eq] at h2
        exact h2 h
  · intro hres hne
    unfold ActionResizeFormat.mk
    rw [if_neg, if_neg]
    · exact ⟨_, rfl⟩
    · simp [hne]
    · simp [hres]

/-- C1 witness: the amended theorem applied at concrete inputs — resizing
exDev (current size 30, bounds 1 and 100) to 30, and resizing its format
(current size 10) to 10, both fail with a ValueError. -/
theorem c1_resize_construction_validation_witness :
    (∃ msg, ActionResizeDevice.mk exDev 30 8 = .error (.valueError msg)) ∧
    (∃ msg, ActionResizeFormat.mk exDev 10 9 = .error (.valueError msg)) :=
  ⟨(c1_resize_construction_validation exDev 30 8).1 (Or.inl (by decide)),
   (c1_resize_construction_validation exDev 10 9).2.1 (by decide)⟩

/-- C2 counterexample: exDev has targetSize 0 before construction; after
constructing ActionResizeDevice with new size 40 a cancel sets the device's
targetSize to exDev.size = 50, not to the value 0 it held immediately before
construction. -/
theorem c2_counterexample :
    exDev.targetSize = 0 ∧
    (ActionResizeDevice.mk exDev 40 3).map
      (fun p => (p.1.cancel p.2).targetSize) = .ok 50 ∧
    exDev.targetSize ≠ 50 :=
  ⟨rfl, rfl, by decide⟩

/-- C2 amended: cancel on a freshly constructed action restores the mutated
attribute exactly — device.format.targetSize for ActionResizeFormat,
device.format for ActionCreateFormat (constructed with a format) and
ActionDestroyFormat, and device.targetSize for ActionResizeDevice provided
the device's targetSize was positive before construction; when it was not,
ActionResizeDevice's cancel sets targetSize to the device's size attribute
instead. -/
theorem c2_cancel_restores (dev : Device) (ns : Int) (f : Format) (aid : Nat)
    (p q : DeviceAction × Device) :
    (ActionResizeDevice.mk dev ns aid = .ok p → 0 < dev.targetSize →
      (p.1.cancel p.2).targetSize = dev.targetSize) ∧
    (ActionResizeDevice.mk dev ns aid = .ok p → dev.targetSize ≤ 0 →
      (p.1.cancel p.2).targetSize = dev.size) ∧
    (ActionResizeFormat.mk dev ns aid = .ok q →
      (q.1.cancel q.2).format.targetSize = dev.format.targetSize) ∧
    ((ActionCreateFormat.mk dev (some f) aid).1.cancel
      (ActionCreateFormat.mk dev (some f) aid).2).format = dev.format ∧
    ((ActionDestroyFormat.mk dev aid).1.cancel
      (ActionDestroyFormat.mk dev aid).2).format = dev.format := by
  refine ⟨?_, ?_, ?_, rfl, rfl⟩
  · intro h hpos
    unfold ActionResizeDevice.mk at h
    split at h
    · exact absurd h (by simp)
    · split at h
      · exact absurd h (by simp)
      · split at h
        · exact absurd h (by simp)
        · split at h
          · exact absurd h (by simp)
          · simp only [Except.ok.injEq] at h
            subst h
            simp only [DeviceAction.cancel]
  · intro h hnonpos
    unfold ActionResizeDevice.mk at h
    split at h
    · exact absurd h (by simp)
    · split at h
      · exact absurd h (by simp)
      · split at h
        · exact absurd h (by simp)
        · split at h
          · exact absurd h (by simp)
          · simp only [Except.ok.injEq] at h
            subst h
            simp only [DeviceAction.cancel]
            exact if_neg (by omega)
  · intro h
    unfold ActionResizeFormat.mk at h
    split at h
    · exact absurd h (by simp)
    · split at h
      · exact absurd h (by simp)
      · simp only [Except.ok.injEq] at h
        subst h
        rfl

/-- A copy of exDev with a positive targetSize, used by the C2 witness. -/
def devW : Device := { exDev with targetSize := 20 }

/-- The action/device pair produced by ActionResizeDevice.mk devW 40 3. -/
def rdPair : DeviceAction × Device :=
  (⟨3, .resizeDevice RESIZE_GROW 20, { devW with targetSize := 40 }⟩,
   { devW with targetSize := 40 })

/-- The action/device pair produced by ActionResizeFormat.mk devW 12 3. -/
def rfPair : DeviceAction × Device :=
  (⟨3, .resizeFormat RESIZE_GROW 10,
     { devW with format := { ext4Fmt with targetSize := 12 } }⟩,
   { devW with format := { ext4Fmt with targetSize := 12 } })

/-- C2 witness: the amended theorem applied at concrete inputs — on devW
(targetSize 20), cancel after a device resize to 40 restores targetSize 20,
and cancel after a format resize to 12 restores the format's target size. -/
theorem c2_cancel_restores_witness :
    (rdPair.1.cancel rdPair.2).targetSize = devW.targetSize ∧
    (rfPair.1.cancel rfPair.2).format.targetSize = devW.format.targetSize :=
  ⟨(c2_cancel_restores devW 40 ext4Fmt 3 rdPair rdPair).1 rfl (by decide),
   (c2_cancel_restores devW 12 ext4Fmt 3 rfPair rfPair).2.2.1 rfl⟩

/-- A concrete device that does not exist yet, used by the C3 witness. -/
def exDevNew : Device :=
  { id := 9, exists_ := false, resizable := false, currentSize := 0,
    minSize := 0, maxSize := 0, size := 0, targetSize := 0,
    format := getFormat none, dependsOnIds := [], subtype := .storage,
    deviceLinks := [] }

/-- C3: an ActionDestroyDevice a obsoletes an action b exactly when both act
on the same device and either the device does not exist and b's id is at most
a's id (so a obsoletes itself too), or the device exists, b's id is strictly
lower, and b is not a format-destroy action; across different devices it is
always false. -/
theorem c3_destroy_device_obsoletes (a b : DeviceAction)
    (ha : a.kind = .destroyDevice) :
    a.obsoletes b = true ↔
      (b.device.id = a.device.id ∧
        ((a.device.exists_ = false ∧ b.id ≤ a.id) ∨
         (a.device.exists_ = true ∧ b.id < a.id ∧
          (b.isDestroy && b.isFormat) = false))) := by
  unfold DeviceAction.obsoletes
  rw [ha]
  cases hex : a.device.exists_ <;>
    cases hdf : b.isDestroy && b.isFormat <;>
      simp [hex, hdf] <;>
      omega

/-- C3 witness: the theorem applied to a concrete destroy of the
not-yet-existing device exDevNew and a concrete create action on it with a
lower id: the destroy obsoletes the create, and also obsoletes itself. -/
theorem c3_destroy_device_obsoletes_witness :
    DeviceAction.obsoletes ⟨6, .destroyDevice, exDevNew⟩
      ⟨2, .createDevice, exDevNew⟩ = true ∧
    DeviceAction.obsoletes ⟨6, .destroyDevice, exDevNew⟩
      ⟨6, .destroyDevice, exDevNew⟩ = true :=
  ⟨(c3_destroy_device_obsoletes ⟨6, .destroyDevice, exDevNew⟩
      ⟨2, .createDevice, exDevNew⟩ rfl).mpr (by decide),
   (c3_destroy_device_obsoletes ⟨6, .destroyDevice, exDevNew⟩
      ⟨6, .destroyDevice, exDevNew⟩ rfl).mpr (by decide)⟩

/-- A format-destroy action whose snapshotted original format is the blank
non-existent placeholder, on exDev (whose current format is an existing
ext4): used by the C4 counterexample. -/
def c4a : DeviceAction := ⟨5, .destroyFormat (getFormat none), exDev⟩

/-- A format-resize action on exDev with a lower id than c4a: a same-device
format action that is not a format-destroy. -/
def c4b : DeviceAction := ⟨3, .resizeFormat RESIZE_GROW 0, exDev⟩

/-- C4 counterexample: c4b is a format action on the same device as c4a with
a strictly lower id and is not a format-destroy action, so the claim says
c4a obsoletes it; but c4a.obsoletes c4b is false, because the exception in
the code tests the format attribute of any action b (the device's current,
existing ext4 format here), not only of format-destroy actions. -/
theorem c4_counterexample :
    c4b.device.id = c4a.device.id ∧ c4b.id < c4a.id ∧
    c4b.isFormat = true ∧ c4b.isDestroy = false ∧
    c4a.obsoletes c4b = false := by decide

/-- C4 amended: an ActionDestroyFormat a with snapshotted format f obsoletes
a format action b on the same device exactly when b's id is strictly lower,
or equal (self-obsoletion) with f not existing, except that a never obsoletes
any action b whose format attribute (the snapshotted format when b is a
format-destroy, the device's current format otherwise) exists while f does
not. -/
theorem c4_destroy_format_obsoletes (a b : DeviceAction) (f : Format)
    (ha : a.kind = .destroyFormat f) :
    a.obsoletes b = true ↔
      (a.device.id = b.device.id ∧ b.isFormat = true ∧
       (b.id < a.id ∨ (b.id = a.id ∧ f.exists_ = false)) ∧
       ¬(b.format.exists_ = true ∧ f.exists_ = false)) := by
  obtain ⟨aid, akind, adev⟩ := a
  simp only at ha
  subst ha
  obtain ⟨bid, bkind, bdev⟩ := b
  cases hf : f.exists_ <;>
    cases bkind <;>
      simp [DeviceAction.obsoletes, DeviceAction.obj, DeviceAction.isFormat,
        DeviceAction.isDestroy, DeviceAction.format, DeviceAction.type,
        ActionKind.obj, ActionKind.type, ACTION_OBJECT_FORMAT,
        ACTION_OBJECT_DEVICE, ACTION_TYPE_DESTROY, ACTION_TYPE_CREATE,
        ACTION_TYPE_RESIZE, hf] <;>
      first
        | omega
        | (constructor <;> intro h <;> tauto)
        | tauto

/-- C4 witness: the amended theorem applied to concrete actions — a destroy
of exDev's existing ext4 format obsoletes a lower-id format-create on the
same device, and a destroy whose snapshotted format does not exist obsoletes
itself. -/
theorem c4_destroy_format_obsoletes_witness :
    DeviceAction.obsoletes ⟨5, .destroyFormat ext4Fmt, exDev⟩
      ⟨2, .createFormat (getFormat none), exDev⟩ = true ∧
    c4a.obsoletes c4a = true :=
  ⟨(c4_destroy_format_obsoletes ⟨5, .destroyFormat ext4Fmt, exDev⟩
      ⟨2, .createFormat (getFormat none), exDev⟩ ext4Fmt rfl).mpr (by decide),
   (c4_destroy_format_obsoletes c4a c4a (getFormat none) rfl).mpr (by decide)⟩

/-- C5: an ActionCreateFormat a obsoletes an action b exactly when b is a
format action on the same device with a strictly lower id and b is not a
destroy action whose format (the snapshotted original format of the
format-destroy) exists on disk. -/
theorem c5_create_format_obsoletes (a b : DeviceAction) (f : Format)
    (ha : a.kind = .createFormat f) :
    a.obsoletes b = true ↔
      (a.device.id = b.device.id ∧ b.isFormat = true ∧ b.id < a.id ∧
       ¬(b.isDestroy = true ∧ b.format.exists_ = true)) := by
  obtain ⟨aid, akind, adev⟩ := a
  simp only at ha
  subst ha
  obtain ⟨bid, bkind, bdev⟩ := b
  cases bkind <;>
    simp [DeviceAction.obsoletes, DeviceAction.obj, DeviceAction.isFormat,
      DeviceAction.isDestroy, DeviceAction.format, DeviceAction.type,
      ActionKind.obj, ActionKind.type, ACTION_OBJECT_FORMAT,
      ACTION_OBJECT_DEVICE, ACTION_TYPE_DESTROY, ACTION_TYPE_CREATE,
      ACTION_TYPE_RESIZE] <;>
    first
      | omega
      | (constructor <;> intro h <;> tauto)
      | tauto

/-- C5 witness: the theorem applied to concrete actions — a format-create on
exDev obsoletes a lower-id format-resize on the same device, and does not
obsolete a lower-id destroy of the existing ext4 format. -/
theorem c5_create_format_obsoletes_witness :
    DeviceAction.obsoletes ⟨6, .createFormat (getFormat none), exDev⟩
      ⟨2, .resizeFormat RESIZE_GROW 0, exDev⟩ = true ∧
    DeviceAction.obsoletes ⟨6, .createFormat (getFormat none), exDev⟩
      ⟨2, .destroyFormat ext4Fmt, exDev⟩ = false :=
  ⟨(c5_create_format_obsoletes ⟨6, .createFormat (getFormat none), exDev⟩
      ⟨2, .resizeFormat RESIZE_GROW 0, exDev⟩ (getFormat none) rfl).mpr
      (by decide),
   by
    have h := (c5_create_format_obsoletes ⟨6, .createFormat (getFormat none), exDev⟩
      ⟨2, .destroyFormat ext4Fmt, exDev⟩ (getFormat none) rfl)
    by_contra hc
    simp only [Bool.not_eq_false] at hc
    exact absurd (h.mp hc) (by decide)⟩

/-- C6: an ActionResizeDevice a requires b exactly when b is a resize and
either b is a format resize of the same device with the same direction and a
is a shrink, or b grows a device a's device depends on, or b shrinks a
device that depends on a's device; dually an ActionResizeFormat a requires b
exactly when b is a resize and either b is a device resize of the same
device with the same direction and a is a grow, or b shrinks a device that
depends on a's device, or b grows a device a's device depends on. -/
theorem c6_resize_requires (a b : DeviceAction) (d : Nat) (o : Int) :
    (a.kind = .resizeDevice d o →
      (a.requires b = true ↔
        (b.isResize = true ∧
          ((a.device.id = b.device.id ∧ b.dir = some d ∧ b.isFormat = true ∧
            a.isShrink = true) ∨
           (b.isGrow = true ∧ a.device.dependsOn b.device = true) ∨
           (b.isShrink = true ∧ b.device.dependsOn a.device = true))))) ∧
    (a.kind = .resizeFormat d o →
      (a.requires b = true ↔
        (b.isResize = true ∧
          ((a.device.id = b.device.id ∧ b.dir = some d ∧ b.isDevice = true ∧
            a.isGrow = true) ∨
           (b.isShrink = true ∧ b.device.dependsOn a.device = true) ∨
           (b.isGrow = true ∧ a.device.dependsOn b.device = true))))) := by
  obtain ⟨aid, akind, adev⟩ := a
  obtain ⟨bid, bkind, bdev⟩ := b
  constructor
  · intro ha
    simp only at ha
    subst ha
    cases bkind <;>
      simp [DeviceAction.requires, DeviceAction.obj, DeviceAction.isFormat,
        DeviceAction.isDevice, DeviceAction.isDestroy, DeviceAction.isCreate,
        DeviceAction.isResize, DeviceAction.isShrink, DeviceAction.isGrow,
        DeviceAction.dir, DeviceAction.type, ActionKind.obj, ActionKind.type,
        ACTION_OBJECT_FORMAT, ACTION_OBJECT_DEVICE, ACTION_TYPE_DESTROY,
        ACTION_TYPE_CREATE, ACTION_TYPE_RESIZE, RESIZE_SHRINK, RESIZE_GROW] <;>
      first
        | omega
        | tauto
        | (constructor <;> intro h <;> tauto)
  · intro ha
    simp only at ha
    subst ha
    cases bkind <;>
      simp [DeviceAction.requires, DeviceAction.obj, DeviceAction.isFormat,
        DeviceAction.isDevice, DeviceAction.isDestroy, DeviceAction.isCreate,
        DeviceAction.isResize, DeviceAction.isShrink, DeviceAction.isGrow,
        DeviceAction.dir, DeviceAction.type, ActionKind.obj, ActionKind.type,
        ACTION_OBJECT_FORMAT, ACTION_OBJECT_DEVICE, ACTION_TYPE_DESTROY,
        ACTION_TYPE_CREATE, ACTION_TYPE_RESIZE, RESIZE_SHRINK, RESIZE_GROW] <;>
      first
        | omega
        | tauto
        | (constructor <;> intro h <;> tauto)

/-- C6 witness: the theorem applied to concrete actions on exDev — a device
shrink requires the format shrink on the same device, and a format grow
requires the device grow on the same device. -/
theorem c6_resize_requires_witness :
    DeviceAction.requires ⟨4, .resizeDevice RESIZE_SHRINK 0, exDev⟩
      ⟨2, .resizeFormat RESIZE_SHRINK 0, exDev⟩ = true ∧
    DeviceAction.requires ⟨4, .resizeFormat RESIZE_GROW 0, exDev⟩
      ⟨2, .resizeDevice RESIZE_GROW 0, exDev⟩ = true :=
  ⟨((c6_resize_requires ⟨4, .resizeDevice RESIZE_SHRINK 0, exDev⟩
      ⟨2, .resizeFormat RESIZE_SHRINK 0, exDev⟩ RESIZE_SHRINK 0).1 rfl).mpr
      (by decide),
   ((c6_resize_requires ⟨4, .resizeFormat RESIZE_GROW 0, exDev⟩
      ⟨2, .resizeDevice RESIZE_GROW 0, exDev⟩ RESIZE_GROW 0).2 rfl).mpr
      (by decide)⟩

/-- Partition number 1 on disk 7, used by the C7 witness. -/
def part1 : Device :=
  { id := 21, exists_ := false, resizable := false, currentSize := 10,
    minSize := 0, maxSize := 100, size := 10, targetSize := 0,
    format := getFormat none, dependsOnIds := [7],
    subtype := .partitionDev 7 1, deviceLinks := [] }

/-- Partition number 2 on disk 7, used by the C7 witness. -/
def part2 : Device :=
  { id := 22, exists_ := false, resizable := false, currentSize := 10,
    minSize := 0, maxSize := 100, size := 10, targetSize := 0,
    format := getFormat none, dependsOnIds := [7],
    subtype := .partitionDev 7 2, deviceLinks := [] }

/-- C7: for two partition devices on the same disk with distinct partition
numbers, neither depending on the other, the create action for the
higher-numbered partition requires the create action for the lower-numbered
one and not vice versa, and the destroy action for the lower-numbered
partition requires the destroy action for the higher-numbered one. -/
theorem c7_partition_ordering (p1 p2 : Device) (disk n1 n2 : Nat)
    (i1 i2 i3 i4 : Nat)
    (h1 : p1.subtype = .partitionDev disk n1)
    (h2 : p2.subtype = .partitionDev disk n2)
    (hn : n1 < n2)
    (hd1 : p1.dependsOn p2 = false)
    (hd2 : p2.dependsOn p1 = false) :
    DeviceAction.requires ⟨i2, .createDevice, p2⟩ ⟨i1, .createDevice, p1⟩ = true ∧
    DeviceAction.requires ⟨i1, .createDevice, p1⟩ ⟨i2, .createDevice, p2⟩ = false ∧
    DeviceAction.requires ⟨i3, .destroyDevice, p1⟩ ⟨i4, .destroyDevice, p2⟩ = true := by
  refine ⟨?_, ?_, ?_⟩ <;>
    simp [DeviceAction.requires, DeviceAction.obj, DeviceAction.isFormat,
      DeviceAction.isDevice, DeviceAction.isDestroy, DeviceAction.isCreate,
      DeviceAction.type, ActionKind.obj, ActionKind.type,
      ACTION_OBJECT_FORMAT, ACTION_OBJECT_DEVICE, ACTION_TYPE_DESTROY,
      ACTION_TYPE_CREATE, ACTION_TYPE_RESIZE, Device.isPartitionDevice,
      Device.isLVMLV, Device.diskId, Device.partNumber, Device.vgId,
      Device.singlePV, h1, h2, hd1, hd2, hn] <;>
    omega

/-- C7 witness: the theorem applied to two concrete partitions numbered 1
and 2 on the same disk. -/
theorem c7_partition_ordering_witness :
    DeviceAction.requires ⟨12, .createDevice, part2⟩
      ⟨11, .createDevice, part1⟩ = true ∧
    DeviceAction.requires ⟨11, .createDevice, part1⟩
      ⟨12, .createDevice, part2⟩ = false ∧
    DeviceAction.requires ⟨13, .destroyDevice, part1⟩
      ⟨14, .destroyDevice, part2⟩ = true :=
  c7_partition_ordering part1 part2 7 1 2 11 12 13 14 rfl rfl
    (by decide) (by decide) (by decide)

end Blivet
